import Mathlib

-- =====================================================================
-- Shallow embedding of the DJI flight-log decoder
-- (src/vineyard-app/electron-app/server/dji_log_analyzer.py,
--  class DJILogParser).
--
-- Byte buffers are lists of naturals (each < 256 in real use).  The
-- struct.unpack little-endian integer reads become leNat / i16le.
-- IEEE-754 binary64 values read by struct.unpack with format <d are
-- decoded exactly: every finite double is a rational number, and the
-- infinities and NaN get their own constructors.  The conversion
-- math.degrees and the decimal rounding round(x, 7) applied to the
-- coordinates are exposed through the view degQ; the record stores the
-- exactly decoded radian value (the degree conversion is injective, and
-- rounding to 7 decimal places moves a value by less than 1e-7, which
-- no claim depends on).  The roundings round(x, 2) and round(x, 1)
-- applied to heights, speeds and attitude angles are exact, because
-- those values are exact multiples of 1/10.
-- =====================================================================

/-- Byte access data[i].  Every read performed by the embedded code is
guarded by an explicit bounds check in the source, so the default 0 is
never consulted on the executed paths. -/
def byteAt (data : List Nat) (i : Nat) : Nat := data.getD i 0

/-- Little-endian unsigned integer of a byte list: models struct.unpack
with formats <H, <I, <Q applied to a slice. -/
def leNat (bs : List Nat) : Nat := bs.foldr (fun b acc => b + 256 * acc) 0

/-- Little-endian signed 16-bit integer: models struct.unpack with
format <h. -/
def i16le (bs : List Nat) : Int :=
  let v := leNat bs
  if v < 32768 then (v : Int) else (v : Int) - 65536

/-- An IEEE-754 binary64 value: finite doubles are exact rationals,
infinities and NaN are kept apart.  math.degrees returns an infinity on
overflow without raising, and two-argument round propagates infinities
and NaN unchanged, so these values flow into the record like finite
ones. -/
inductive F64 where
  | finite (q : ℚ)
  | inf (neg : Bool)
  | nan
deriving DecidableEq

/-- Exact decoding of 8 little-endian bytes as an IEEE-754 binary64
value: models struct.unpack with format <d.  A subnormal with fraction
f has value f * 2 ^ (-1074); a normal with biased exponent e and
fraction f has value (2 ^ 52 + f) * 2 ^ (e - 1075).  The negative
powers of two are written as divisions by natural-number powers so that
the kernel can evaluate the function on concrete bytes. -/
def decodeF64 (bs : List Nat) : F64 :=
  let bits : Nat := leNat bs
  let sign : Nat := bits / 2 ^ 63 % 2
  let expo : Nat := bits / 2 ^ 52 % 2 ^ 11
  let frac : Nat := bits % 2 ^ 52
  if expo = 2047 then
    if frac = 0 then .inf (sign = 1) else .nan
  else
    let mag : ℚ :=
      if expo = 0 then (frac : ℚ) / ((2 ^ 1074 : Nat) : ℚ)
      else if expo ≤ 1075 then
        ((2 ^ 52 + frac : Nat) : ℚ) / ((2 ^ (1075 - expo) : Nat) : ℚ)
      else ((2 ^ 52 + frac : Nat) : ℚ) * ((2 ^ (expo - 1075) : Nat) : ℚ)
    .finite (if sign = 1 then -mag else mag)

/-- The value of math.degrees on a finite double, in exact real
arithmetic: radians times 180 divided by pi. -/
noncomputable def degQ (q : ℚ) : ℝ := (q : ℝ) * 180 / Real.pi

/-- Decoded OSD (type 255) telemetry record: the value built by
DJILogParser.parse_osd_frame.  The source dict stores
round(math.degrees(v), 7) for the two coordinates; we store the exactly
decoded radian value v and expose the degree conversion as degQ. -/
structure OSDRecord where
  longitudeRad : F64
  latitudeRad : F64
  height : ℚ
  xSpeed : ℚ
  ySpeed : ℚ
  zSpeed : ℚ
  pitch : ℚ
  roll : ℚ
  yaw : ℚ
  gpsSatellites : Nat
deriving DecidableEq

/-- Decoded Smart Battery (type 13) record: the value built by
DJILogParser.parse_battery_frame. -/
structure BatteryRecord where
  battery_percent : Nat
  current_capacity_mah : Nat
  total_capacity_mah : Nat
  charge_cycles : Nat
deriving DecidableEq

/-- A decoded record: the tagged union stored in self.records. -/
inductive Record where
  | osd (r : OSDRecord)
  | battery (r : BatteryRecord)
deriving DecidableEq

/-- The value of the string key named type in each record dict. -/
def Record.typeName : Record → String
  | .osd _ => "OSD"
  | .battery _ => "Battery"

/-- DJILogParser.parse_osd_frame (source lines 138-207).  data is the
frame slice including the 2-byte type/length header.  Returns none
exactly when len(data) < 55 (the explicit guard): with len(data) >= 55
every struct.unpack slice is full, math.degrees returns an infinity on
overflow without raising, and round(x, 7) propagates infinities and NaN
unchanged, so the surrounding try can catch nothing and the record is
returned unconditionally. -/
def parse_osd_frame (data : List Nat) : Option OSDRecord :=
  if data.length < 55 then none
  else
    some {
      longitudeRad := decodeF64 ((data.drop 2).take 8)
      latitudeRad := decodeF64 ((data.drop 10).take 8)
      height := (i16le ((data.drop 18).take 2) : ℚ) / 10
      xSpeed := (i16le ((data.drop 20).take 2) : ℚ) / 10
      ySpeed := (i16le ((data.drop 22).take 2) : ℚ) / 10
      zSpeed := (i16le ((data.drop 24).take 2) : ℚ) / 10
      pitch := (i16le ((data.drop 26).take 2) : ℚ) / 10
      roll := (i16le ((data.drop 28).take 2) : ℚ) / 10
      yaw := (i16le ((data.drop 30).take 2) : ℚ) / 10
      gpsSatellites := if 38 < data.length then byteAt data 38 else 0 }

/-- DJILogParser.parse_battery_frame (source lines 209-246).  data is
the frame slice including the 2-byte type/length header.  Returns none
exactly when len(data) < 30; with len(data) >= 30 every read is in
bounds, so the surrounding try can catch nothing. -/
def parse_battery_frame (data : List Nat) : Option BatteryRecord :=
  if data.length < 30 then none
  else some {
    battery_percent := byteAt data 2
    current_capacity_mah := leNat ((data.drop 3).take 2)
    total_capacity_mah := leNat ((data.drop 5).take 2)
    charge_cycles :=
      if 10 + 4 ≤ data.length then leNat ((data.drop 10).take 4) else 0 }

/-- One iteration of the while loop of DJILogParser.parse (source lines
89-128), returning the new offset and the new record list.  The branch
returning (offset, recs) models the break at lines 100-101; under the
loop guard offset < len(data) - 1 that branch is unreachable.  The
except at lines 126-128 can catch nothing: every read inside the body
is bounds-checked before it happens and both frame decoders catch their
own exceptions. -/
def scanStep (data : List Nat) (offset : Nat) (recs : List Record) :
    Nat × List Record :=
  if byteAt data offset = 0 ∨ 20 < byteAt data offset then (offset + 1, recs)
  else if data.length ≤ offset + 1 then (offset, recs)
  else if byteAt data (offset + 1) = 0 ∨
      data.length < offset + byteAt data (offset + 1) + 2 then
    (offset + 1, recs)
  else
    (offset + byteAt data (offset + 1) + 2,
      if byteAt data offset = 255 then
        match parse_osd_frame
            ((data.drop offset).take (byteAt data (offset + 1) + 2)) with
        | some r => recs ++ [Record.osd r]
        | none => recs
      else if byteAt data offset = 13 then
        match parse_battery_frame
            ((data.drop offset).take (byteAt data (offset + 1) + 2)) with
        | some r => recs ++ [Record.battery r]
        | none => recs
      else recs)

/-- The while loop of DJILogParser.parse with an explicit fuel
parameter for structural recursion.  The loop guard is the source
condition offset < len(data) - 1 (in Nat arithmetic, which agrees with
the Python integer arithmetic: for an empty buffer both guards are
false).  Any fuel of at least len(data) is adequate, because each
iteration advances offset by at least one byte; see scanLoopF_stable
below. -/
def scanLoopF : Nat → List Nat → Nat → List Record → List Record
  | 0, _, _, recs => recs
  | fuel + 1, data, offset, recs =>
    if offset < data.length - 1 then
      let s := scanStep data offset recs
      scanLoopF fuel data s.1 s.2
    else recs

/-- The while loop of DJILogParser.parse, run with adequate fuel. -/
def scanLoop (data : List Nat) (offset : Nat) (recs : List Record) :
    List Record :=
  scanLoopF data.length data offset recs

/-- The details value held in self.details: none models the initial
empty dict set by the constructor, some slice models a value assigned
from the metadata slice data[11 : 11 + details_length].  The source
decodes the slice as UTF-8 with errors ignored, strips NUL bytes from
both ends, and assigns either json.loads of the result or a raw-text
fallback, both pure functions of the slice: we keep the slice itself as
the model of the assigned value.  The assignment happens only when the
stripped decoded string is nonempty, which we model as the slice
containing a nonzero byte (exact for NUL-padded ASCII payloads; the
difference, byte sequences that UTF-8 decoding discards entirely,
affects no claim). -/
def updateDetails (prev : Option (List Nat)) (data : List Nat)
    (detailsLength : Nat) : Option (List Nat) :=
  if 0 < detailsLength then
    let slice := (data.drop 11).take detailsLength
    if slice.any (· ≠ 0) then some slice else prev
  else prev

/-- The dict returned by DJILogParser.parse: keys version, details and
records. -/
structure LogDocument where
  version : Nat
  details : Option (List Nat)
  records : List Record
deriving DecidableEq

/-- DJILogParser.parse (source lines 41-136) as a function of the
instance state before the call (prevDetails models self.details,
prevRecords models self.records) and the file bytes.  none models an
uncaught exception: struct.unpack raises struct.error when fewer than 8
(resp. 10) bytes are available for the <Q (resp. <H) header read, and
data[10] raises IndexError when len(data) <= 10; all three collapse to
len(data) < 11.  The 8-byte record-area size is read and printed but
never used.  When details_length is 0 the source leaves offset at 11,
which equals 11 + details_length. -/
def parseDJI (prevDetails : Option (List Nat)) (prevRecords : List Record)
    (data : List Nat) : Option LogDocument :=
  if data.length < 11 then none
  else
    let detailsLength := leNat ((data.drop 8).take 2)
    some
      { version := byteAt data 10
        details := updateDetails prevDetails data detailsLength
        records := scanLoop data (11 + detailsLength) prevRecords }

-- =====================================================================
-- Concrete buffers used by the counterexamples and witnesses.
-- =====================================================================

/-- A file buffer: 8-byte record-area size (zero), 2-byte details
length (zero), one version byte, then the frame area. -/
def mkBuf (version : Nat) (tail : List Nat) : List Nat :=
  [0, 0, 0, 0, 0, 0, 0, 0, 0, 0, version] ++ tail

/-- A 30-byte Smart Battery frame with the given percent byte and all
other payload bytes zero. -/
def batFrame (p : Nat) : List Nat :=
  [13, 28, p] ++ List.replicate 27 0

/-- Buffer with format_version = 99 and one valid battery frame. -/
def buf1 : List Nat := mkBuf 99 (batFrame 77)

/-- A 55-byte OSD frame slice whose latitude field holds the double 2.0
(bytes 10 to 17, little-endian: 0x4000000000000000), an angle of about
114.6 degrees, far outside [-90, 90]. -/
def c2fr : List Nat :=
  [255, 53,
   0, 0, 0, 0, 0, 0, 0, 0,
   0, 0, 0, 0, 0, 0, 0, 64,
   0, 0, 0, 0, 0, 0, 0, 0, 0, 0, 0, 0, 0, 0, 0, 0, 0, 0,
   0, 0, 0, 0, 0, 0, 0, 0, 0, 0, 0, 0, 0, 0, 0, 0, 0, 0, 0]

/-- Buffer with a battery frame claiming percent 150, a second battery
frame with percent 60, and a structurally valid 57-byte OSD frame. -/
def buf3 : List Nat :=
  mkBuf 1 (batFrame 150 ++ batFrame 60 ++ ([255, 55] ++ List.replicate 55 0))

/-- Buffer whose 20-byte frame area carries, at area offset 5, a frame
header of type 5 claiming length 200 — far past the end. -/
def buf4bad : List Nat := mkBuf 1 ([0, 0, 0, 0, 0, 5, 200] ++ List.replicate 13 0)

/-- The same buffer with the two bad header bytes zeroed. -/
def buf4ok : List Nat := mkBuf 1 (List.replicate 20 0)

/-- Buffer engineered to contain a zero-length frame (type 1, declared
length 0). -/
def buf5 : List Nat := mkBuf 1 [1, 0, 9]

/-- Buffer with one structurally valid frame of unknown type 5 and
declared length 3. -/
def buf6a : List Nat := mkBuf 2 [5, 3, 9, 9, 9]

/-- The same buffer with the frame replaced by non-frame bytes. -/
def buf6b : List Nat := mkBuf 2 [0, 0, 0, 0, 0]

/-- A 55-byte all-zero OSD frame slice: 53 bytes past the 2-byte
prefix. -/
def osd55 : List Nat := [255, 53] ++ List.replicate 53 0

/-- A 54-byte OSD frame slice, one byte short of the threshold the code
enforces. -/
def osd54 : List Nat := [255, 52] ++ List.replicate 52 0

/-- Buffer with one battery record, used to exhibit the accumulation of
self.records across two parse calls on one instance. -/
def buf8 : List Nat := mkBuf 3 (batFrame 80)

/-- Another one-battery buffer. -/
def buf8w : List Nat := mkBuf 4 (batFrame 10)

/-- The 11-byte minimal prologue-only buffer. -/
def buf9w : List Nat := List.replicate 11 0

/-- Another one-battery buffer. -/
def buf10 : List Nat := mkBuf 5 (batFrame 20)

-- =====================================================================
-- Helper lemmas about the scanner.
-- =====================================================================

/-- Under the loop guard, one iteration advances offset by at least one
byte: the break branch is unreachable and every other branch adds 1 or
fl + 2. -/
theorem scanStep_fst_ge (data : List Nat) (offset : Nat) (recs : List Record)
    (h : offset < data.length - 1) : offset + 1 ≤ (scanStep data offset recs).1 := by
  unfold scanStep
  by_cases h1 : byteAt data offset = 0 ∨ 20 < byteAt data offset
  · simp [h1]
  · have h2 : ¬ data.length ≤ offset + 1 := by omega
    by_cases h3 : byteAt data (offset + 1) = 0 ∨
        data.length < offset + byteAt data (offset + 1) + 2
    · simp [h1, h2, h3]
    · simp only [h1, h2, h3, if_false]
      omega

/-- The new offset computed by one iteration does not depend on the
record list accumulated so far. -/
theorem scanStep_fst_const (data : List Nat) (offset : Nat) (recs : List Record) :
    (scanStep data offset recs).1 = (scanStep data offset []).1 := by
  unfold scanStep
  by_cases h1 : byteAt data offset = 0 ∨ 20 < byteAt data offset
  · simp [h1]
  · by_cases h2 : data.length ≤ offset + 1
    · simp [h1, h2]
    · by_cases h3 : byteAt data (offset + 1) = 0 ∨
          data.length < offset + byteAt data (offset + 1) + 2
      · simp [h1, h2, h3]
      · simp [h1, h2, h3]

/-- One iteration only ever appends to the record list: the records
produced from the current frame are the same whatever was accumulated
before. -/
theorem scanStep_snd_append (data : List Nat) (offset : Nat) (recs : List Record) :
    (scanStep data offset recs).2 = recs ++ (scanStep data offset []).2 := by
  unfold scanStep
  by_cases h1 : byteAt data offset = 0 ∨ 20 < byteAt data offset
  · simp [h1]
  · by_cases h2 : data.length ≤ offset + 1
    · simp [h1, h2]
    · by_cases h3 : byteAt data (offset + 1) = 0 ∨
          data.length < offset + byteAt data (offset + 1) + 2
      · simp [h1, h2, h3]
      · simp only [h1, h2, h3, if_false]
        by_cases h4 : byteAt data offset = 255
        · simp only [h4, if_true]
          cases parse_osd_frame ((data.drop offset).take (byteAt data (offset + 1) + 2)) with
          | none => simp
          | some r => simp
        · by_cases h5 : byteAt data offset = 13
          · simp only [h4, h5, if_false, if_true]
            cases parse_battery_frame ((data.drop offset).take (byteAt data (offset + 1) + 2)) with
            | none => simp
            | some r => simp
          · simp [h4, h5]

/-- The record delta of one iteration is empty or a single battery
record: the OSD dispatch branch is dead, because reaching the dispatch
requires a frame type of at most 20 while the OSD type code is 255. -/
theorem scanStep_snd_battery (data : List Nat) (offset : Nat) :
    (scanStep data offset []).2 = [] ∨
    ∃ b, (scanStep data offset []).2 = [Record.battery b] := by
  unfold scanStep
  by_cases h1 : byteAt data offset = 0 ∨ 20 < byteAt data offset
  · simp [h1]
  · by_cases h2 : data.length ≤ offset + 1
    · simp [h1, h2]
    · by_cases h3 : byteAt data (offset + 1) = 0 ∨
          data.length < offset + byteAt data (offset + 1) + 2
      · simp [h1, h2, h3]
      · have h4 : ¬ byteAt data offset = 255 := by omega
        simp only [h1, h2, h3, h4, if_false]
        by_cases h5 : byteAt data offset = 13
        · simp only [h5, if_true]
          cases parse_battery_frame ((data.drop offset).take (byteAt data (offset + 1) + 2)) with
          | none => simp
          | some r => exact Or.inr ⟨r, by simp⟩
        · simp [h5]

/-- The scan only appends: running the loop on an already accumulated
record list prepends that list unchanged. -/
theorem scanLoopF_append (fuel : Nat) :
    ∀ (data : List Nat) (offset : Nat) (recs : List Record),
    scanLoopF fuel data offset recs = recs ++ scanLoopF fuel data offset [] := by
  induction fuel with
  | zero => intro data offset recs; simp [scanLoopF]
  | succ f ih =>
    intro data offset recs
    unfold scanLoopF
    by_cases h : offset < data.length - 1
    · simp only [h, if_true]
      rw [scanStep_fst_const data offset recs, scanStep_snd_append data offset recs,
        ih data (scanStep data offset []).1 (recs ++ (scanStep data offset []).2),
        ih data (scanStep data offset []).1 ((scanStep data offset []).2)]
      simp
    · simp [h]

/-- Any two adequate fuels compute the same scan result: the loop stops
by reaching the guard, not by running out of fuel. -/
theorem scanLoopF_stable (f1 : Nat) :
    ∀ (f2 : Nat) (data : List Nat) (offset : Nat) (recs : List Record),
    data.length - 1 - offset ≤ f1 → data.length - 1 - offset ≤ f2 →
    scanLoopF f1 data offset recs = scanLoopF f2 data offset recs := by
  induction f1 with
  | zero =>
    intro f2 data offset recs h1 h2
    have hg : ¬ offset < data.length - 1 := by omega
    cases f2 with
    | zero => rfl
    | succ g => simp [scanLoopF, hg]
  | succ g1 ih =>
    intro f2 data offset recs h1 h2
    by_cases hg : offset < data.length - 1
    · have hf2 : ∃ g2, f2 = g2 + 1 := by
        cases f2 with
        | zero => omega
        | succ g2 => exact ⟨g2, rfl⟩
      obtain ⟨g2, rfl⟩ := hf2
      simp only [scanLoopF, hg, if_true]
      have hadv := scanStep_fst_ge data offset recs hg
      exact ih g2 data (scanStep data offset recs).1 (scanStep data offset recs).2
        (by omega) (by omega)
    · cases f2 with
      | zero => simp [scanLoopF, hg]
      | succ g2 => simp [scanLoopF, hg]

/-- Every record the scan appends is a battery record: the scanner
classifies byte 255 as a non-frame byte, so the OSD decoder is never
reached from the loop. -/
theorem scanLoopF_mem (fuel : Nat) :
    ∀ (data : List Nat) (offset : Nat) (recs : List Record) (x : Record),
    x ∈ scanLoopF fuel data offset recs →
    x ∈ recs ∨ ∃ b, x = Record.battery b := by
  induction fuel with
  | zero => intro data offset recs x hx; simp [scanLoopF] at hx; exact Or.inl hx
  | succ f ih =>
    intro data offset recs x hx
    unfold scanLoopF at hx
    by_cases h : offset < data.length - 1
    · simp only [h, if_true] at hx
      rcases ih data (scanStep data offset recs).1 (scanStep data offset recs).2 x hx with
        hmem | hbat
      · rw [scanStep_snd_append data offset recs] at hmem
        rcases List.mem_append.mp hmem with hl | hr
        · exact Or.inl hl
        · rcases scanStep_snd_battery data offset with hnil | ⟨b, hb⟩
          · rw [hnil] at hr; simp at hr
          · rw [hb] at hr
            simp at hr
            exact Or.inr ⟨b, hr⟩
      · exact Or.inr hbat
    · simp only [h, if_false] at hx
      exact Or.inl hx

/-- Assigning the details value twice from the same buffer is the same
as assigning it once. -/
theorem updateDetails_idem (prev : Option (List Nat)) (data : List Nat)
    (n : Nat) : updateDetails (updateDetails prev data n) data n =
    updateDetails prev data n := by
  unfold updateDetails
  by_cases h1 : 0 < n
  · simp only [h1, if_true]
    by_cases h2 : ((data.drop 11).take n).any (· ≠ 0) = true
    · rw [if_pos h2, if_pos h2]
    · rw [if_neg h2, if_neg h2]
  · simp only [h1, if_false]

/-- The equation of parseDJI on a buffer long enough for the header. -/
theorem parseDJI_eq (prevDetails : Option (List Nat)) (prevRecords : List Record)
    (data : List Nat) (h : 11 ≤ data.length) :
    parseDJI prevDetails prevRecords data = some
      { version := byteAt data 10
        details := updateDetails prevDetails data (leNat ((data.drop 8).take 2))
        records := scanLoop data (11 + leNat ((data.drop 8).take 2)) prevRecords } := by
  unfold parseDJI
  have h' : ¬ data.length < 11 := by omega
  simp [h']

/-- The bytes 00 00 00 00 00 00 00 40 decode to the double 2.0. -/
theorem decodeF64_two : decodeF64 [0, 0, 0, 0, 0, 0, 0, 64] = F64.finite 2 := by
  norm_num [decodeF64, leNat]

/-- Every slice of length at least 55 decodes to a record:
parse_osd_frame has no rejection path beyond the length guard — in
particular no range validation of the coordinates. -/
theorem osd_decodes_of_length (frame : List Nat) (h : 55 ≤ frame.length) :
    (parse_osd_frame frame).isSome = true := by
  unfold parse_osd_frame
  have h' : ¬ frame.length < 55 := by omega
  simp [h']

/-- A second parse call on the same instance state returns the same
version and details but appends a second copy of the decoded records. -/
theorem reparse_doc (data : List Nat) (doc : LogDocument)
    (h : parseDJI none [] data = some doc) :
    parseDJI doc.details doc.records data =
      some { version := doc.version, details := doc.details,
             records := doc.records ++ doc.records } := by
  have hlen : 11 ≤ data.length := by
    by_contra hc
    unfold parseDJI at h
    rw [if_pos (by omega)] at h
    cases h
  rw [parseDJI_eq none [] data hlen] at h
  injection h with h
  subst h
  rw [parseDJI_eq _ _ data hlen]
  simp only [Option.some.injEq, LogDocument.mk.injEq]
  refine ⟨trivial, updateDetails_idem none data _, ?_⟩
  exact scanLoopF_append data.length data (11 + leNat ((data.drop 8).take 2))
    (scanLoopF data.length data (11 + leNat ((data.drop 8).take 2)) [])

-- =====================================================================
-- Claim theorems.
-- =====================================================================

set_option maxRecDepth 100000 in
/-- Claim C1, counterexample: parsing a buffer whose format_version
byte is 99 does not fail and does not produce zero records — it returns
a full document with version 99 and the decoded battery record.  The
code never inspects the version byte and has no UnsupportedVersion
error path. -/
theorem parse_accepts_version99 :
    parseDJI none [] buf1 =
      some { version := 99, details := none,
             records := [Record.battery ⟨77, 0, 0, 0⟩] } := by decide

/-- Claim C1, amended: parse performs no validation of the
format_version byte; on every buffer long enough for the 11-byte
prologue it proceeds to frame scanning and returns a document whose
version field is the raw byte at offset 10, whatever its value. -/
theorem parse_ignores_version (prevDetails : Option (List Nat))
    (prevRecords : List Record) (data : List Nat) (h : 11 ≤ data.length) :
    ∃ doc : LogDocument, parseDJI prevDetails prevRecords data = some doc ∧
      doc.version = byteAt data 10 :=
  ⟨_, parseDJI_eq prevDetails prevRecords data h, rfl⟩

set_option maxRecDepth 100000 in
/-- Witness for parse_ignores_version at the concrete version-99
buffer. -/
theorem parse_ignores_version_witness :
    ∃ doc : LogDocument, parseDJI none [] buf1 = some doc ∧
      doc.version = byteAt buf1 10 :=
  parse_ignores_version none [] buf1 (by decide)

/-- Claim C2, counterexample: an OSD frame slice whose latitude decodes
to 2.0 radians — more than 90 degrees after conversion — is not
discarded: parse_osd_frame returns the record carrying that latitude.
The decoder has no coordinate range check. -/
theorem osd_out_of_range_kept :
    (parse_osd_frame c2fr).map OSDRecord.latitudeRad = some (F64.finite 2) ∧
    (90 : ℝ) < degQ 2 := by
  constructor
  · have hs1 : (c2fr.drop 10).take 8 = [0, 0, 0, 0, 0, 0, 0, 64] := by decide
    have hlen : ¬ c2fr.length < 55 := by decide
    unfold parse_osd_frame
    rw [hs1, decodeF64_two]
    simp [hlen]
  · have hpi4 : Real.pi < 4 := lt_trans Real.pi_lt_d2 (by norm_num)
    have hpos := Real.pi_pos
    unfold degQ
    rw [lt_div_iff₀ hpos]
    push_cast
    nlinarith

/-- Claim C2, amended: parse_osd_frame performs no latitude or
longitude range validation — every slice of length at least 55 yields a
record, whatever the coordinate values; moreover, no OSD record is ever
appended by the frame scan, because the scanner classifies byte 255 as
a non-frame byte and so the OSD dispatch branch is dead. -/
theorem osd_no_range_check :
    (∀ frame : List Nat, 55 ≤ frame.length →
      (parse_osd_frame frame).isSome = true) ∧
    (∀ (data : List Nat) (offset : Nat) (recs : List Record) (r : OSDRecord),
      Record.osd r ∈ scanLoop data offset recs → Record.osd r ∈ recs) := by
  constructor
  · exact osd_decodes_of_length
  · intro data offset recs r hmem
    unfold scanLoop at hmem
    rcases scanLoopF_mem data.length data offset recs _ hmem with hin | ⟨b, hb⟩
    · exact hin
    · cases hb

/-- Witness for osd_no_range_check at the concrete out-of-range
frame. -/
theorem osd_no_range_check_witness :
    (parse_osd_frame c2fr).isSome = true :=
  osd_no_range_check.1 c2fr (by decide)

set_option maxRecDepth 100000 in
/-- Claim C3, counterexample: a battery frame with battery_percent =
150 is not dropped — the record is produced with that value — and the
following structurally valid 57-byte OSD telemetry frame is not
decoded (only the two battery records appear). -/
theorem battery_percent150_kept :
    parseDJI none [] buf3 =
      some { version := 1, details := none,
             records := [Record.battery ⟨150, 0, 0, 0⟩,
                         Record.battery ⟨60, 0, 0, 0⟩] } := by decide

/-- Claim C3, amended: parse_battery_frame performs no validation of
the percent byte — every slice of length at least 30 yields a record
whose battery_percent is the raw byte at offset 2, whatever its
value. -/
theorem battery_percent_not_validated (slice : List Nat)
    (h : 30 ≤ slice.length) :
    ∃ r : BatteryRecord, parse_battery_frame slice = some r ∧
      r.battery_percent = byteAt slice 2 := by
  have h' : ¬ slice.length < 30 := by omega
  refine ⟨⟨byteAt slice 2, leNat ((slice.drop 3).take 2),
    leNat ((slice.drop 5).take 2),
    if 10 + 4 ≤ slice.length then leNat ((slice.drop 10).take 4) else 0⟩,
    ?_, rfl⟩
  unfold parse_battery_frame
  rw [if_neg h']

/-- Witness for battery_percent_not_validated at the percent-150
frame. -/
theorem battery_percent_not_validated_witness :
    ∃ r : BatteryRecord, parse_battery_frame (batFrame 150) = some r ∧
      r.battery_percent = byteAt (batFrame 150) 2 :=
  battery_percent_not_validated (batFrame 150) (by decide)

set_option maxRecDepth 100000 in
/-- Claim C4, counterexample: the parse of the 31-byte buffer whose
frame area claims a length-200 frame at area offset 5 returns exactly
the same document as the parse of the same buffer with the bad header
zeroed, and that document has only the keys version, details and
records — no decode_error_count is maintained or surfaced anywhere. -/
theorem invalid_frame_no_error_count :
    parseDJI none [] buf4bad = parseDJI none [] buf4ok ∧
    parseDJI none [] buf4bad =
      some { version := 1, details := none, records := [] } ∧
    buf4bad ≠ buf4ok := by
  refine ⟨by decide, by decide, by decide⟩

/-- Claim C4, amended: when the byte at offset is a plausible frame
type but the declared length is 0 or overruns the buffer, the scanner
advances offset by exactly 1 byte with the record list unchanged and
continues; the parse never aborts on such a frame.  (No
decode_error_count exists in the code to increment.) -/
theorem invalid_frame_resync_one_byte (data : List Nat) (offset : Nat)
    (recs : List Record) (h : offset < data.length - 1)
    (ht0 : byteAt data offset ≠ 0) (ht20 : byteAt data offset ≤ 20)
    (hbad : byteAt data (offset + 1) = 0 ∨
      data.length < offset + byteAt data (offset + 1) + 2) :
    scanStep data offset recs = (offset + 1, recs) := by
  unfold scanStep
  have h1 : ¬ (byteAt data offset = 0 ∨ 20 < byteAt data offset) := by omega
  have h2 : ¬ data.length ≤ offset + 1 := by omega
  rw [if_neg h1, if_neg h2, if_pos hbad]

/-- Witness for invalid_frame_resync_one_byte at the length-200 claim
inside the 20-byte frame area. -/
theorem invalid_frame_resync_one_byte_witness :
    scanStep buf4bad 16 [] = (17, []) :=
  invalid_frame_resync_one_byte buf4bad 16 [] (by decide) (by decide)
    (by decide) (Or.inr (by decide))

/-- Claim C5, confirmed: under the loop guard every iteration of the
frame scan advances offset by at least one byte, and hence the scan
terminates — any fuel of at least the buffer length computes the same
final record list, in particular on a buffer with a zero-length
frame. -/
theorem scan_offset_increases :
    (∀ (data : List Nat) (offset : Nat) (recs : List Record),
      offset < data.length - 1 → offset + 1 ≤ (scanStep data offset recs).1) ∧
    (∀ (data : List Nat) (offset : Nat) (recs : List Record) (fuel : Nat),
      data.length ≤ fuel →
      scanLoopF fuel data offset recs = scanLoop data offset recs) := by
  constructor
  · exact scanStep_fst_ge
  · intro d o r f hf
    unfold scanLoop
    exact scanLoopF_stable f d.length d o r (by omega) (by omega)

/-- Witness for scan_offset_increases at the zero-length-frame
buffer. -/
theorem scan_offset_increases_witness :
    11 + 1 ≤ (scanStep buf5 11 []).1 ∧
    scanLoopF 20 buf5 11 [] = scanLoop buf5 11 [] :=
  ⟨scan_offset_increases.1 buf5 11 [] (by decide),
   scan_offset_increases.2 buf5 11 [] 20 (by decide)⟩

set_option maxRecDepth 100000 in
/-- Claim C6, counterexample: the parse of the buffer containing one
structurally valid unknown-type frame (type 5) returns exactly the same
document as the parse of the same buffer with the frame replaced by
non-frame bytes — no skipped_frame_count is maintained or surfaced
anywhere. -/
theorem unknown_frame_no_skip_count :
    parseDJI none [] buf6a = parseDJI none [] buf6b ∧
    parseDJI none [] buf6a =
      some { version := 2, details := none, records := [] } ∧
    buf6a ≠ buf6b := by
  refine ⟨by decide, by decide, by decide⟩

/-- Claim C6, amended: a structurally valid frame whose type is in
(0, 20] but is not 13 (the only type in that range with a decoder)
produces no record and advances offset by exactly declared_length + 2 —
a full frame width, not the 1-byte resync.  (No skipped_frame_count
exists in the code to increment; type 255, though it has a decoder
branch, never reaches it, because 255 > 20.) -/
theorem unknown_frame_advances_full_width (data : List Nat) (offset : Nat)
    (recs : List Record) (h : offset < data.length - 1)
    (ht0 : byteAt data offset ≠ 0) (ht20 : byteAt data offset ≤ 20)
    (ht13 : byteAt data offset ≠ 13)
    (hfl : byteAt data (offset + 1) ≠ 0)
    (hfit : offset + byteAt data (offset + 1) + 2 ≤ data.length) :
    scanStep data offset recs =
      (offset + byteAt data (offset + 1) + 2, recs) := by
  unfold scanStep
  have h1 : ¬ (byteAt data offset = 0 ∨ 20 < byteAt data offset) := by omega
  have h2 : ¬ data.length ≤ offset + 1 := by omega
  have h3 : ¬ (byteAt data (offset + 1) = 0 ∨
    data.length < offset + byteAt data (offset + 1) + 2) := by omega
  have h4 : ¬ byteAt data offset = 255 := by omega
  rw [if_neg h1, if_neg h2, if_neg h3, if_neg h4, if_neg ht13]

/-- Witness for unknown_frame_advances_full_width at the type-5
frame. -/
theorem unknown_frame_advances_full_width_witness :
    scanStep buf6a 11 [] = (16, []) :=
  unknown_frame_advances_full_width buf6a 11 [] (by decide) (by decide)
    (by decide) (by decide) (by decide) (by decide)

/-- Claim C7, counterexample: a slice of total length 55 — only 53
bytes past the 2-byte type/length prefix, which the claim says must be
rejected as Malformed — is decoded to a record. -/
theorem osd_total_length55_decodes :
    osd55.length = 55 ∧ osd55.length - 2 = 53 ∧
    (parse_osd_frame osd55).isSome = true :=
  ⟨by decide, by decide, by decide⟩

/-- Claim C7, amended: the OSD decoder requires the frame slice to
contain at least 55 bytes in total, including the 2-byte type/length
prefix (53 bytes past it): every shorter slice returns none, and every
slice at least that long is decoded. -/
theorem osd_length_threshold :
    (∀ frame : List Nat, frame.length < 55 → parse_osd_frame frame = none) ∧
    (∀ frame : List Nat, 55 ≤ frame.length →
      (parse_osd_frame frame).isSome = true) := by
  constructor
  · intro frame hlen
    unfold parse_osd_frame
    rw [if_pos hlen]
  · exact osd_decodes_of_length

/-- Witness for osd_length_threshold on both sides of the
threshold. -/
theorem osd_length_threshold_witness :
    parse_osd_frame osd54 = none ∧ (parse_osd_frame osd55).isSome = true :=
  ⟨osd_length_threshold.1 osd54 (by decide),
   osd_length_threshold.2 osd55 (by decide)⟩

set_option maxRecDepth 100000 in
/-- Claim C8, counterexample: two runs of parse over the same byte
buffer on the same instance state do not yield bit-identical documents
— the record list of the second run is twice that of the first. -/
theorem same_instance_reparse_differs :
    parseDJI none [] buf8 =
      some { version := 3, details := none,
             records := [Record.battery ⟨80, 0, 0, 0⟩] } ∧
    parseDJI none [Record.battery ⟨80, 0, 0, 0⟩] buf8 =
      some { version := 3, details := none,
             records := [Record.battery ⟨80, 0, 0, 0⟩,
                         Record.battery ⟨80, 0, 0, 0⟩] } ∧
    (some { version := 3, details := none,
            records := [Record.battery ⟨80, 0, 0, 0⟩] } :
        Option LogDocument) ≠
      some { version := 3, details := none,
             records := [Record.battery ⟨80, 0, 0, 0⟩,
                         Record.battery ⟨80, 0, 0, 0⟩] } := by
  refine ⟨by decide, by decide, by decide⟩

/-- Claim C8, amended: parse is a pure function of the byte buffer and
the instance state; two runs from a fresh instance yield the same
document, but a second run on the same instance keeps the version and
details and appends a second copy of the records, so same-instance
reruns are bit-identical only when no record decodes. -/
theorem parse_state_dependence (data : List Nat) (doc : LogDocument)
    (h : parseDJI none [] data = some doc) :
    parseDJI doc.details doc.records data =
      some { version := doc.version, details := doc.details,
             records := doc.records ++ doc.records } :=
  reparse_doc data doc h

set_option maxRecDepth 100000 in
/-- Witness for parse_state_dependence at a one-record buffer. -/
theorem parse_state_dependence_witness :
    parseDJI (none : Option (List Nat)) [Record.battery ⟨10, 0, 0, 0⟩] buf8w =
      some { version := 4, details := none,
             records := [Record.battery ⟨10, 0, 0, 0⟩,
                         Record.battery ⟨10, 0, 0, 0⟩] } :=
  parse_state_dependence buf8w
    { version := 4, details := none,
      records := [Record.battery ⟨10, 0, 0, 0⟩] } (by decide)

/-- Claim C9, confirmed: on every buffer of at least 11 bytes — enough
for the fixed prologue — parse absorbs every condition (any
metadata_length, any frame-area content) and returns the
three-field document, and every element of its record list is an OSD
or a Battery record. -/
theorem parse_total_after_prologue (prevDetails : Option (List Nat))
    (prevRecords : List Record) (data : List Nat) (h : 11 ≤ data.length) :
    ∃ doc : LogDocument, parseDJI prevDetails prevRecords data = some doc ∧
      ∀ x ∈ doc.records, x.typeName = "OSD" ∨ x.typeName = "Battery" := by
  refine ⟨_, parseDJI_eq prevDetails prevRecords data h, ?_⟩
  intro x hx
  cases x with
  | osd r => exact Or.inl rfl
  | battery b => exact Or.inr rfl

/-- Witness for parse_total_after_prologue at the 11-byte minimal
buffer. -/
theorem parse_total_after_prologue_witness :
    ∃ doc : LogDocument, parseDJI none [] buf9w = some doc ∧
      ∀ x ∈ doc.records, x.typeName = "OSD" ∨ x.typeName = "Battery" :=
  parse_total_after_prologue none [] buf9w (by decide)

/-- Claim C10, confirmed: the record list is never cleared between
calls — a second parse call on the same instance returns a record list
that is the concatenation of the first pass and a second identical
pass. -/
theorem reparse_appends_records (data : List Nat) (doc : LogDocument)
    (h : parseDJI none [] data = some doc) :
    ∃ doc2 : LogDocument, parseDJI doc.details doc.records data = some doc2 ∧
      doc2.records = doc.records ++ doc.records :=
  ⟨_, reparse_doc data doc h, rfl⟩

set_option maxRecDepth 100000 in
/-- Witness for reparse_appends_records at a one-record buffer. -/
theorem reparse_appends_records_witness :
    ∃ doc2 : LogDocument,
      parseDJI (none : Option (List Nat)) [Record.battery ⟨20, 0, 0, 0⟩] buf10 =
        some doc2 ∧
      doc2.records = [Record.battery ⟨20, 0, 0, 0⟩] ++
        [Record.battery ⟨20, 0, 0, 0⟩] :=
  reparse_appends_records buf10
    { version := 5, details := none,
      records := [Record.battery ⟨20, 0, 0, 0⟩] } (by decide)
